import Mathlib

/-!
Verification of the Metabase MCP server (`src/index.ts`).

The server is a thin adapter: every request handler validates its
arguments, performs one or two HTTP calls against the Metabase REST API
and reshapes the response.  The embedding below models JavaScript values
(`Json`), the axios call layer as an environment function from requests
to responses, and each request handler as a pure function that returns
its reply (or failure) together with the exact list of HTTP calls it
issued, in order.  The session manager (`getSessionToken`) is modelled
separately as a state transformer, mirroring the component split of the
server itself: the dispatcher resolves the session credential first and
then runs the per-tool or per-resource body.
-/

namespace MetabaseMCP

/-- JavaScript values as they appear in the server's argument bags, HTTP
request bodies and HTTP response data: JSON values plus the JS
`undefined`, which is what property access on a missing key yields.
Numeric values are modelled as integers (every number the handlers touch
is an id, a grid position or a grid size). -/
inductive Json where
  | null
  | undefined
  | bool (b : Bool)
  | num (n : Int)
  | str (s : String)
  | arr (elems : List Json)
  | obj (fields : List (String × Json))

/-- JavaScript truthiness (`if (x)`): `undefined`, `null`, `false`, `0`
and the empty string are falsy; every array and object is truthy. -/
def Json.truthy : Json → Bool
  | .null => false
  | .undefined => false
  | .bool b => b
  | .num n => n != 0
  | .str s => s != ""
  | .arr _ => true
  | .obj _ => true

@[simp] theorem Json.truthy_null : Json.null.truthy = false := rfl

@[simp] theorem Json.truthy_undefined : Json.undefined.truthy = false := rfl

@[simp] theorem Json.truthy_bool (b : Bool) : (Json.bool b).truthy = b := rfl

@[simp] theorem Json.truthy_num (n : Int) : (Json.num n).truthy = (n != 0) := rfl

@[simp] theorem Json.truthy_str (s : String) : (Json.str s).truthy = (s != "") := rfl

@[simp] theorem Json.truthy_arr (xs : List Json) : (Json.arr xs).truthy = true := rfl

@[simp] theorem Json.truthy_obj (fs : List (String × Json)) : (Json.obj fs).truthy = true := rfl

/-- Field lookup in an object's field list: the first binding wins, a
missing key yields `undefined`. -/
def Json.getFields : List (String × Json) → String → Json
  | [], _ => .undefined
  | (k, v) :: fs, key => if k = key then v else Json.getFields fs key

/-- JS property access `x.k`: the field's value, `undefined` when the key
is absent or when `x` is not an object (access on `null` would throw in
JS; the handlers only ever dereference object-shaped responses). -/
def Json.get (j : Json) (key : String) : Json :=
  match j with
  | .obj fs => Json.getFields fs key
  | _ => .undefined

/-- JS `a || b` as used pervasively in the source (`dc.series || []`,
`arguments?.f || "all"`): the left value when truthy, otherwise the
default. -/
def Json.orFalsy (v dflt : Json) : Json :=
  if v.truthy then v else dflt

/-- A destructuring default (`const { row = 0 } = args`): applied only
when the value is `undefined`, unlike `||`. -/
def Json.orDefault (v dflt : Json) : Json :=
  match v with
  | .undefined => dflt
  | _ => v

/-- Rest destructuring `const { k, ...rest } = obj`: all fields except
`k`. -/
def Json.removeField (j : Json) (key : String) : Json :=
  match j with
  | .obj fs => .obj (fs.filter (fun p => p.1 != key))
  | _ => .obj []

/-- `Object.keys(x).length` for an object value. -/
def Json.fieldCount : Json → Nat
  | .obj fs => fs.length
  | _ => 0

/-- The keys of an object value, in order. -/
def Json.keys : Json → List String
  | .obj fs => fs.map Prod.fst
  | _ => []

/-- JS strict equality against `undefined`
(`parameter_mappings === undefined`). -/
def Json.isUndefined : Json → Bool
  | .undefined => true
  | _ => false

/-- JS strict equality against a string literal (`dbEngine === "mongo"`). -/
def Json.isStr (j : Json) (s : String) : Bool :=
  match j with
  | .str t => t == s
  | _ => false

/-- JS strict equality between two values (`dc.id === dashcard_id`).
For primitives this is value equality; for arrays and objects JS
compares references, and since the two compared values always come from
different sources (a service response and a request argument) the
comparison is modelled as false there. -/
def Json.strictEq : Json → Json → Bool
  | .null, .null => true
  | .undefined, .undefined => true
  | .bool a, .bool b => a == b
  | .num a, .num b => a == b
  | .str a, .str b => a == b
  | _, _ => false

/-- Object spread `\x7b ...data, extras \x7d`: keys of `data` keep their
position (overwritten by an extra of the same name), remaining extras
are appended.  Spreading a non-object primitive contributes no fields. -/
def Json.spread (data : Json) (extras : List (String × Json)) : Json :=
  match data with
  | .obj fs =>
      .obj ((fs.map (fun p => (p.1, (extras.lookup p.1).getD p.2)))
        ++ extras.filter (fun q => !((fs.map Prod.fst).contains q.1)))
  | _ => .obj extras

mutual

/-- JS template-literal stringification (`String(x)`, backtick
interpolation): strings verbatim, numbers in decimal, `null`,
`undefined`, arrays joined by commas with null/undefined elements
blank, objects as `[object Object]`. -/
def Json.jsToString : Json → String
  | .null => "null"
  | .undefined => "undefined"
  | .bool b => if b then "true" else "false"
  | .num n => toString n
  | .str s => s
  | .arr xs => String.intercalate "," (Json.jsToStringElems xs)
  | .obj _ => "[object Object]"

def Json.jsToStringElems : List Json → List String
  | [] => []
  | .null :: xs => "" :: Json.jsToStringElems xs
  | .undefined :: xs => "" :: Json.jsToStringElems xs
  | x :: xs => Json.jsToString x :: Json.jsToStringElems xs

end

/-- One escaped character of a JSON string literal. -/
def escapeJsonChar (c : Char) : String :=
  if c = '"' then "\\\""
  else if c = '\\' then "\\\\"
  else if c = '\n' then "\\n"
  else if c = '\r' then "\\r"
  else if c = '\t' then "\\t"
  else String.singleton c

/-- JSON string escaping as performed by `JSON.stringify`. -/
def escapeJsonString (s : String) : String :=
  String.join (s.data.map escapeJsonChar)

/-- An indentation run of `n` spaces. -/
def indentSpaces (n : Nat) : String :=
  String.mk (List.replicate n ' ')

mutual

/-- `JSON.stringify(v, null, 2)` at a given indentation level:
two-space indented pretty printing; `undefined` object fields are
dropped, `undefined` array elements print as `null`. -/
def Json.prettyAux : Nat → Json → String
  | _, .null => "null"
  | _, .undefined => "undefined"
  | _, .bool b => if b then "true" else "false"
  | _, .num n => toString n
  | _, .str s => "\"" ++ escapeJsonString s ++ "\""
  | ind, .arr xs =>
      match xs with
      | [] => "[]"
      | _ => "[\n" ++ String.intercalate ",\n" (Json.prettyElems (ind + 2) xs)
          ++ "\n" ++ indentSpaces ind ++ "]"
  | ind, .obj fs =>
      match Json.prettyFields (ind + 2) fs with
      | [] => "\x7b\x7d"
      | lines => "\x7b\n" ++ String.intercalate ",\n" lines
          ++ "\n" ++ indentSpaces ind ++ "\x7d"

def Json.prettyElems : Nat → List Json → List String
  | _, [] => []
  | ind, .undefined :: xs => (indentSpaces ind ++ "null") :: Json.prettyElems ind xs
  | ind, x :: xs => (indentSpaces ind ++ Json.prettyAux ind x) :: Json.prettyElems ind xs

def Json.prettyFields : Nat → List (String × Json) → List String
  | _, [] => []
  | ind, (_, .undefined) :: fs => Json.prettyFields ind fs
  | ind, (k, v) :: fs =>
      (indentSpaces ind ++ "\"" ++ escapeJsonString k ++ "\": " ++ Json.prettyAux ind v)
        :: Json.prettyFields ind fs

end

/-- `JSON.stringify(v, null, 2)`, the serialization applied to every
response body before it is placed in a text content item. -/
def Json.pretty (j : Json) : String := Json.prettyAux 0 j

/-- The elements of an array value.  Every place this is used the source
calls `.map` on the value, which in JS requires an array; Metabase's
`dashcards`, `tables` and `fields` response fields are arrays. -/
def Json.asArray : Json → List Json
  | .arr xs => xs
  | _ => []

/-! ### HTTP call layer -/

/-- HTTP method of an axios call. -/
inductive Method where
  | get
  | post
  | put
  | delete
deriving DecidableEq

/-- One HTTP call issued through the axios instance: method, path
relative to the configured base URL, and the JSON body for POST/PUT. -/
structure HttpCall where
  method : Method
  path : String
  body : Option Json

/-- An axios request failure: the error's own `message` and the value
found at `error.response?.data?.message` (`undefined` when the failure
carried no response payload). -/
structure AxiosFailure where
  message : String
  respDataMessage : Json

/-- The text interpolated into every axios-error report:
`error.response?.data?.message || error.message`. -/
def AxiosFailure.displayMessage (e : AxiosFailure) : String :=
  if e.respDataMessage.truthy then e.respDataMessage.jsToString else e.message

/-- The external service as seen through axios: each call either yields
response data or fails.  Handlers never repeat a call, so a plain
function of the call is an exact model of the sequential behaviour. -/
def HttpEnv : Type := HttpCall → Except AxiosFailure Json

/-! ### Error model -/

/-- The server's custom error codes. -/
inductive ErrorCode where
  | internalError
  | invalidRequest
  | invalidParams
  | methodNotFound
deriving DecidableEq

/-- The wire value of each error code. -/
def ErrorCode.code : ErrorCode → String
  | .internalError => "internal_error"
  | .invalidRequest => "invalid_request"
  | .invalidParams => "invalid_params"
  | .methodNotFound => "method_not_found"

/-- A protocol error (`McpError`): code plus message. -/
structure McpError where
  code : ErrorCode
  message : String
deriving DecidableEq

/-- A failure escaping a tool body: either a thrown `McpError`
(validation) or an axios error from a downstream HTTP call. -/
inductive ToolFailure where
  | mcp (e : McpError)
  | axiosFail (e : AxiosFailure)

/-- A tool reply: the texts of the `type: "text"` content items,
plus the `isError` flag. -/
structure ToolReply where
  content : List String
  isError : Bool

/-- Result of running one tool body: reply or failure, together with
the HTTP calls issued, in order. -/
inductive ToolRun where
  | ok (reply : ToolReply) (trace : List HttpCall)
  | fail (f : ToolFailure) (trace : List HttpCall)

/-- The HTTP calls a tool run issued. -/
def ToolRun.trace : ToolRun → List HttpCall
  | .ok _ t => t
  | .fail _ t => t

/-- Outcome of a `tools/call` request after the handler's catch block:
either a normal-shaped reply (possibly flagged `isError`) or an error
raised to the protocol layer. -/
inductive CallOutcome where
  | reply (r : ToolReply) (trace : List HttpCall)
  | protocolError (e : McpError) (trace : List HttpCall)

/-! ### Configuration and startup -/

/-- The four environment variables read at startup. -/
structure Config where
  metabaseUrl : Option String
  metabaseUsername : Option String
  metabasePassword : Option String
  metabaseApiKey : Option String
deriving DecidableEq

/-- Truthiness of an environment variable (`!METABASE_URL`): absent or
empty is falsy. -/
def envTruthy : Option String → Bool
  | none => false
  | some s => s != ""

/-- The observable result of a successful startup: which auth mode was
selected, the initial session credential, and the fact that the request
handlers were registered (registration happens only after the
configuration checks pass). -/
structure ServerInit where
  apiKeyMode : Bool
  sessionToken : Option String
  handlersRegistered : Bool
deriving DecidableEq

/-- Process startup: the module-level environment check, then the
constructor's auth-mode selection, then handler registration.  A failed
check throws before any handler is registered. -/
def startup (c : Config) : Except String ServerInit :=
  if !(envTruthy c.metabaseUrl)
      || (!(envTruthy c.metabaseApiKey)
          && (!(envTruthy c.metabaseUsername) || !(envTruthy c.metabasePassword))) then
    .error "Either (METABASE_URL and METABASE_API_KEY) or (METABASE_URL, METABASE_USERNAME, and METABASE_PASSWORD) environment variables are required"
  else if envTruthy c.metabaseApiKey then
    .ok { apiKeyMode := true, sessionToken := some "api_key_used", handlersRegistered := true }
  else if envTruthy c.metabaseUsername && envTruthy c.metabasePassword then
    .ok { apiKeyMode := false, sessionToken := none, handlersRegistered := true }
  else
    .error "Metabase authentication credentials not provided or incomplete."

/-- API-key auth mode: the key is configured and truthy. -/
def apiKeyPresent (c : Config) : Bool := envTruthy c.metabaseApiKey

/-- Username/password auth mode: both are configured and truthy. -/
def userPassBothPresent (c : Config) : Bool :=
  envTruthy c.metabaseUsername && envTruthy c.metabasePassword

/-- Modelled from the spec: "Exactly one of \x7bAPI key present\x7d or
\x7busername and password both present\x7d must hold". -/
def exactlyOneAuthMode (c : Config) : Bool :=
  apiKeyPresent c != userPassBothPresent c

/-- A username/password pair of which exactly one half is supplied. -/
def incompleteUserPassPair (c : Config) : Bool :=
  envTruthy c.metabaseUsername != envTruthy c.metabasePassword

/-! ### Session manager -/

/-- The session manager's mutable state: the memoized `sessionToken`
field and the `X-Metabase-Session` default header installed on the
axios instance. -/
structure SessionState where
  sessionToken : Option String
  sessionHeader : Option String
deriving DecidableEq

/-- Outcome of one login POST to `/api/session`: the `id` of the
response data, or a failure (network error or non-success status). -/
inductive LoginResult where
  | success (id : String)
  | failure
deriving DecidableEq

/-- `getSessionToken`: return the cached credential if set; otherwise
POST `/api/session`, and on success store the returned token and
install it as the default session header, on failure raise an
`internal_error` without caching anything.  The final component counts
the login POSTs made by this invocation (0 or 1). -/
def getSessionToken (login : LoginResult) (st : SessionState) :
    Except McpError String × SessionState × Nat :=
  match st.sessionToken with
  | some t => (.ok t, st, 0)
  | none =>
      match login with
      | .success id =>
          (.ok id, { st with sessionToken := some id, sessionHeader := some id }, 1)
      | .failure =>
          (.error ⟨.internalError, "Failed to authenticate with Metabase"⟩, st, 1)

/-- N sequential invocations of `getSessionToken`, each seeing the
outcome the login POST would have if issued at that point: the list of
results, the final state, and the total number of login POSTs. -/
def runGetSessionToken (logins : List LoginResult) (st : SessionState) :
    List (Except McpError String) × SessionState × Nat :=
  match logins with
  | [] => ([], st, 0)
  | l :: ls =>
      let step := getSessionToken l st
      let rest := runGetSessionToken ls step.2.1
      (step.1 :: rest.1, rest.2.1, step.2.2 + rest.2.2)

/-! ### Resource read handler -/

/-- One content entry of a `resources/read` reply. -/
structure ResourceContents where
  uri : String
  mimeType : String
  text : String

/-- A `resources/read` reply. -/
structure ResourceReply where
  contents : List ResourceContents

/-- Matching a URI against one pattern
`^metabase:\/\/<kind>\/(\d+)$` (given here by its literal prefix):
the captured digit string, or none. -/
def matchIdPattern (pat uri : String) : Option String :=
  if pat.data.isPrefixOf uri.data then
    let rest := uri.data.drop pat.data.length
    if rest ≠ [] && rest.all Char.isDigit then some (String.mk rest) else none
  else none

/-- A single GET whose pretty-printed JSON body becomes the sole
content item, tagged with the original URI; an axios failure becomes an
`internal_error` wrapping the service's message. -/
def readResourceFetch (env : HttpEnv) (uri path : String) :
    Except McpError ResourceReply × List HttpCall :=
  let call : HttpCall := ⟨.get, path, none⟩
  match env call with
  | .ok data => (.ok ⟨[⟨uri, "application/json", Json.pretty data⟩]⟩, [call])
  | .error e =>
      (.error ⟨.internalError, "Metabase API error: " ++ e.displayMessage⟩, [call])

/-- The `resources/read` dispatch: the URI is tried against the
dashboard, card and database patterns in order; the first match issues
one GET against the corresponding endpoint; no match throws an
`invalid_request` naming the URI (which the catch block rethrows
unchanged, as it is not an axios error). -/
def readResource (env : HttpEnv) (uri : String) :
    Except McpError ResourceReply × List HttpCall :=
  match matchIdPattern "metabase://dashboard/" uri with
  | some dashboardId => readResourceFetch env uri ("/api/dashboard/" ++ dashboardId)
  | none =>
    match matchIdPattern "metabase://card/" uri with
    | some cardId => readResourceFetch env uri ("/api/card/" ++ cardId)
    | none =>
      match matchIdPattern "metabase://database/" uri with
      | some databaseId => readResourceFetch env uri ("/api/database/" ++ databaseId)
      | none => (.error ⟨.invalidRequest, "Invalid URI format: " ++ uri⟩, [])

/-! ### Tool bodies

Each `case` of the `tools/call` switch becomes one function from the
argument bag and the HTTP environment to a `ToolRun`.  Failures are the
values the corresponding `throw` would raise (caught or rethrown by the
dispatcher, modelled later). -/

/-- Shared tail of the simple tools: issue the call and wrap the
pretty-printed response data as the sole text content item. -/
def fetchAndPretty (env : HttpEnv) (call : HttpCall) (trace : List HttpCall) : ToolRun :=
  match env call with
  | .ok data => .ok ⟨[Json.pretty data], false⟩ (trace ++ [call])
  | .error e => .fail (.axiosFail e) (trace ++ [call])

/-- `list_dashboards`: GET `/api/dashboard`. -/
def list_dashboards (env : HttpEnv) : ToolRun :=
  fetchAndPretty env ⟨.get, "/api/dashboard", none⟩ []

/-- `list_cards`: GET `/api/card?f=...` with the optional filter
argument defaulting to `"all"`. -/
def list_cards (env : HttpEnv) (args : Json) : ToolRun :=
  let f := (args.get "f").orFalsy (.str "all")
  fetchAndPretty env ⟨.get, "/api/card?f=" ++ f.jsToString, none⟩ []

/-- `list_databases`: GET `/api/database`. -/
def list_databases (env : HttpEnv) : ToolRun :=
  fetchAndPretty env ⟨.get, "/api/database", none⟩ []

/-- `list_collections`: GET `/api/collection`. -/
def list_collections (env : HttpEnv) : ToolRun :=
  fetchAndPretty env ⟨.get, "/api/collection", none⟩ []

/-- `get_database`: require a truthy `database_id`, then GET
`/api/database/id`. -/
def get_database (env : HttpEnv) (args : Json) : ToolRun :=
  let databaseId := args.get "database_id"
  if !databaseId.truthy then
    .fail (.mcp ⟨.invalidParams, "Database ID is required"⟩) []
  else
    fetchAndPretty env ⟨.get, "/api/database/" ++ databaseId.jsToString, none⟩ []

/-- The per-field reduction of `get_database_metadata`: keep id, name
and native type only. -/
def filterMetadataField (f : Json) : Json :=
  .obj [("id", f.get "id"), ("name", f.get "name"), ("database_type", f.get "database_type")]

/-- The per-table reduction of `get_database_metadata`: keep id and
name, reduce each field, default a missing field list to empty. -/
def filterMetadataTable (t : Json) : Json :=
  .obj [("id", t.get "id"), ("name", t.get "name"),
    ("fields",
      match t.get "fields" with
      | .arr fs => .arr (fs.map filterMetadataField)
      | _ => .arr [])]

/-- `get_database_metadata`: require a truthy `database_id`, GET
`/api/database/id/metadata`, and narrow the response to database
id/name and per-table, per-field id/name/native-type. -/
def get_database_metadata (env : HttpEnv) (args : Json) : ToolRun :=
  let databaseId := args.get "database_id"
  if !databaseId.truthy then
    .fail (.mcp ⟨.invalidParams, "Database ID is required"⟩) []
  else
    let call : HttpCall := ⟨.get, "/api/database/" ++ databaseId.jsToString ++ "/metadata", none⟩
    match env call with
    | .ok data =>
        let filteredData : Json := .obj [("id", data.get "id"), ("name", data.get "name"),
          ("tables",
            match data.get "tables" with
            | .arr ts => .arr (ts.map filterMetadataTable)
            | _ => .arr [])]
        .ok ⟨[Json.pretty filteredData], false⟩ [call]
    | .error e => .fail (.axiosFail e) [call]

/-- `execute_card`: require a truthy `card_id`, POST
`/api/card/id/query` with the optional `parameters` object (default
empty). -/
def execute_card (env : HttpEnv) (args : Json) : ToolRun :=
  let cardId := args.get "card_id"
  if !cardId.truthy then
    .fail (.mcp ⟨.invalidParams, "Card ID is required"⟩) []
  else
    let parameters := (args.get "parameters").orFalsy (.obj [])
    fetchAndPretty env
      ⟨.post, "/api/card/" ++ cardId.jsToString ++ "/query",
        some (.obj [("parameters", parameters)])⟩ []

/-- `get_dashboard_cards`: require a truthy `dashboard_id`, GET the
dashboard and return its `dashcards` (falling back to `cards`, then to
an empty list). -/
def get_dashboard_cards (env : HttpEnv) (args : Json) : ToolRun :=
  let dashboardId := args.get "dashboard_id"
  if !dashboardId.truthy then
    .fail (.mcp ⟨.invalidParams, "Dashboard ID is required"⟩) []
  else
    let call : HttpCall := ⟨.get, "/api/dashboard/" ++ dashboardId.jsToString, none⟩
    match env call with
    | .ok data =>
        let dashcards := ((data.get "dashcards").orFalsy (data.get "cards")).orFalsy (.arr [])
        .ok ⟨[Json.pretty dashcards], false⟩ [call]
    | .error e => .fail (.axiosFail e) [call]

/-- `execute_query`: require truthy `database_id` and `query`; GET the
database record to read its `engine`; for `"mongo"` require a truthy
`collection` and tag the native body with the collection and the
stringified query; for every other engine build the native body without
a collection; POST the body to `/api/dataset`. -/
def execute_query (env : HttpEnv) (args : Json) : ToolRun :=
  let databaseId := args.get "database_id"
  let query := args.get "query"
  let collectionParam := args.get "collection"
  let nativeParameters := (args.get "native_parameters").orFalsy (.arr [])
  if !databaseId.truthy then
    .fail (.mcp ⟨.invalidParams, "Database ID is required"⟩) []
  else if !query.truthy then
    .fail (.mcp ⟨.invalidParams, "Query is required"⟩) []
  else
    let dbCall : HttpCall := ⟨.get, "/api/database/" ++ databaseId.jsToString, none⟩
    match env dbCall with
    | .error e => .fail (.axiosFail e) [dbCall]
    | .ok dbData =>
        if (dbData.get "engine").isStr "mongo" then
          if !collectionParam.truthy then
            .fail (.mcp ⟨.invalidParams, "Collection name is required for MongoDB queries"⟩)
              [dbCall]
          else
            let queryData : Json := .obj [("type", .str "native"),
              ("native", .obj [("collection", collectionParam),
                ("query", .str query.jsToString), ("template_tags", .obj [])]),
              ("parameters", nativeParameters), ("database", databaseId)]
            fetchAndPretty env ⟨.post, "/api/dataset", some queryData⟩ [dbCall]
        else
          let queryData : Json := .obj [("type", .str "native"),
            ("native", .obj [("query", query), ("template_tags", .obj [])]),
            ("parameters", nativeParameters), ("database", databaseId)]
          fetchAndPretty env ⟨.post, "/api/dataset", some queryData⟩ [dbCall]

/-- The POST body of `create_card`: the four required fields, then
`collection_id` and `description` only when they are not `undefined`. -/
def createCardBody (args : Json) : Json :=
  .obj ([("name", args.get "name"), ("dataset_query", args.get "dataset_query"),
      ("display", args.get "display"),
      ("visualization_settings", args.get "visualization_settings")]
    ++ (match args.get "collection_id" with
        | .undefined => []
        | v => [("collection_id", v)])
    ++ (match args.get "description" with
        | .undefined => []
        | v => [("description", v)]))

/-- `create_card`: require the four truthy fields, POST `/api/card`,
then augment the response with a `_link` deep link built from the base
URL and the echoed id, and a `_message` confirmation. -/
def create_card (baseURL : String) (env : HttpEnv) (args : Json) : ToolRun :=
  if !(args.get "name").truthy || !(args.get "dataset_query").truthy
      || !(args.get "display").truthy || !(args.get "visualization_settings").truthy then
    .fail (.mcp ⟨.invalidParams,
      "Missing required fields for create_card: name, dataset_query, display, visualization_settings"⟩) []
  else
    let call : HttpCall := ⟨.post, "/api/card", some (createCardBody args)⟩
    match env call with
    | .ok data =>
        let cardLink := baseURL ++ "/question/" ++ (data.get "id").jsToString
        let resultWithLink := data.spread [("_link", .str cardLink),
          ("_message", .str ("Card created successfully! View it at: " ++ cardLink))]
        .ok ⟨[Json.pretty resultWithLink], false⟩ [call]
    | .error e => .fail (.axiosFail e) [call]

/-- `update_card`: require a truthy `card_id` and at least one further
field, then PUT the remaining fields verbatim to `/api/card/id`. -/
def update_card (env : HttpEnv) (args : Json) : ToolRun :=
  let cardId := args.get "card_id"
  let updateFields := args.removeField "card_id"
  if !cardId.truthy then
    .fail (.mcp ⟨.invalidParams, "Card ID is required for update_card"⟩) []
  else if updateFields.fieldCount = 0 then
    .fail (.mcp ⟨.invalidParams, "No fields provided for update_card"⟩) []
  else
    fetchAndPretty env ⟨.put, "/api/card/" ++ cardId.jsToString, some updateFields⟩ []

/-- `delete_card`: require a truthy `card_id`; with a truthy
`hard_delete` (destructuring default `false`) issue a DELETE, otherwise
PUT `archived: true` and report the response body when present. -/
def delete_card (env : HttpEnv) (args : Json) : ToolRun :=
  let cardId := args.get "card_id"
  let hardDelete := (args.get "hard_delete").orDefault (.bool false)
  if !cardId.truthy then
    .fail (.mcp ⟨.invalidParams, "Card ID is required for delete_card"⟩) []
  else if hardDelete.truthy then
    let call : HttpCall := ⟨.delete, "/api/card/" ++ cardId.jsToString, none⟩
    match env call with
    | .ok _ => .ok ⟨["Card " ++ cardId.jsToString ++ " permanently deleted."], false⟩ [call]
    | .error e => .fail (.axiosFail e) [call]
  else
    let call : HttpCall := ⟨.put, "/api/card/" ++ cardId.jsToString,
      some (.obj [("archived", .bool true)])⟩
    match env call with
    | .ok data =>
        .ok ⟨[if data.truthy then
            "Card " ++ cardId.jsToString ++ " archived. Details: " ++ Json.pretty data
          else
            "Card " ++ cardId.jsToString ++ " archived."], false⟩ [call]
    | .error e => .fail (.axiosFail e) [call]

/-- The POST body of `create_dashboard`: `name`, then `description`,
`parameters` and `collection_id` only when not `undefined`. -/
def createDashboardBody (args : Json) : Json :=
  .obj ([("name", args.get "name")]
    ++ (match args.get "description" with
        | .undefined => []
        | v => [("description", v)])
    ++ (match args.get "parameters" with
        | .undefined => []
        | v => [("parameters", v)])
    ++ (match args.get "collection_id" with
        | .undefined => []
        | v => [("collection_id", v)]))

/-- `create_dashboard`: require a truthy `name`, POST
`/api/dashboard`, then augment the response with `_link` and
`_message`. -/
def create_dashboard (baseURL : String) (env : HttpEnv) (args : Json) : ToolRun :=
  if !(args.get "name").truthy then
    .fail (.mcp ⟨.invalidParams, "Missing required field for create_dashboard: name"⟩) []
  else
    let call : HttpCall := ⟨.post, "/api/dashboard", some (createDashboardBody args)⟩
    match env call with
    | .ok data =>
        let dashboardLink := baseURL ++ "/dashboard/" ++ (data.get "id").jsToString
        let resultWithLink := data.spread [("_link", .str dashboardLink),
          ("_message", .str ("Dashboard created successfully! View it at: " ++ dashboardLink))]
        .ok ⟨[Json.pretty resultWithLink], false⟩ [call]
    | .error e => .fail (.axiosFail e) [call]

/-- `update_dashboard`: require a truthy `dashboard_id` and at least
one further field, then PUT the remaining fields verbatim. -/
def update_dashboard (env : HttpEnv) (args : Json) : ToolRun :=
  let dashboardId := args.get "dashboard_id"
  let updateFields := args.removeField "dashboard_id"
  if !dashboardId.truthy then
    .fail (.mcp ⟨.invalidParams, "Dashboard ID is required for update_dashboard"⟩) []
  else if updateFields.fieldCount = 0 then
    .fail (.mcp ⟨.invalidParams, "No fields provided for update_dashboard"⟩) []
  else
    fetchAndPretty env ⟨.put, "/api/dashboard/" ++ dashboardId.jsToString, some updateFields⟩ []

/-- `delete_dashboard`: require a truthy `dashboard_id`; DELETE on a
truthy `hard_delete`, otherwise PUT `archived: true`. -/
def delete_dashboard (env : HttpEnv) (args : Json) : ToolRun :=
  let dashboardId := args.get "dashboard_id"
  let hardDelete := (args.get "hard_delete").orDefault (.bool false)
  if !dashboardId.truthy then
    .fail (.mcp ⟨.invalidParams, "Dashboard ID is required for delete_dashboard"⟩) []
  else if hardDelete.truthy then
    let call : HttpCall := ⟨.delete, "/api/dashboard/" ++ dashboardId.jsToString, none⟩
    match env call with
    | .ok _ =>
        .ok ⟨["Dashboard " ++ dashboardId.jsToString ++ " permanently deleted."], false⟩ [call]
    | .error e => .fail (.axiosFail e) [call]
  else
    let call : HttpCall := ⟨.put, "/api/dashboard/" ++ dashboardId.jsToString,
      some (.obj [("archived", .bool true)])⟩
    match env call with
    | .ok data =>
        .ok ⟨[if data.truthy then
            "Dashboard " ++ dashboardId.jsToString ++ " archived. Details: " ++ Json.pretty data
          else
            "Dashboard " ++ dashboardId.jsToString ++ " archived."], false⟩ [call]
    | .error e => .fail (.axiosFail e) [call]

/-- The re-shaping applied to every existing dashcard before a
whole-list PUT (the identical inline `map` of `add_card_to_dashboard`,
`update_dashboard_card` and `create_dashboard_only_card`): the
canonical nine fields, with `series`, `visualization_settings` and
`parameter_mappings` defaulted to empty when falsy. -/
def formatDashcard (dc : Json) : Json :=
  .obj [("id", dc.get "id"), ("card_id", dc.get "card_id"),
    ("row", dc.get "row"), ("col", dc.get "col"),
    ("size_x", dc.get "size_x"), ("size_y", dc.get "size_y"),
    ("series", (dc.get "series").orFalsy (.arr [])),
    ("visualization_settings", (dc.get "visualization_settings").orFalsy (.obj [])),
    ("parameter_mappings", (dc.get "parameter_mappings").orFalsy (.arr []))]

/-- The entry appended by `add_card_to_dashboard`: placeholder id `-1`,
the supplied card id, and grid fields with destructuring defaults
(row 0, col 0, size 4 by 4). -/
def newDashcard (args : Json) : Json :=
  .obj [("id", .num (-1)), ("card_id", args.get "card_id"),
    ("row", (args.get "row").orDefault (.num 0)),
    ("col", (args.get "col").orDefault (.num 0)),
    ("size_x", (args.get "size_x").orDefault (.num 4)),
    ("size_y", (args.get "size_y").orDefault (.num 4))]

/-- `add_card_to_dashboard`: require truthy `dashboard_id` and
`card_id`; GET the dashboard, re-shape its existing dashcards, append
the new entry, and PUT the whole list back under `cards`. -/
def add_card_to_dashboard (env : HttpEnv) (args : Json) : ToolRun :=
  let dashboardId := args.get "dashboard_id"
  if !dashboardId.truthy then
    .fail (.mcp ⟨.invalidParams, "Dashboard ID is required for add_card_to_dashboard"⟩) []
  else if !(args.get "card_id").truthy then
    .fail (.mcp ⟨.invalidParams, "Card ID is required for add_card_to_dashboard"⟩) []
  else
    let getCall : HttpCall := ⟨.get, "/api/dashboard/" ++ dashboardId.jsToString, none⟩
    match env getCall with
    | .error e => .fail (.axiosFail e) [getCall]
    | .ok dashData =>
        let existingCards := (dashData.get "dashcards").orFalsy (.arr [])
        let allCards := existingCards.asArray.map formatDashcard ++ [newDashcard args]
        let updateBody : Json := .obj [("cards", .arr allCards)]
        fetchAndPretty env
          ⟨.put, "/api/dashboard/" ++ dashboardId.jsToString ++ "/cards", some updateBody⟩
          [getCall]

/-- `remove_card_from_dashboard`: require truthy `dashboard_id` and
`dashcard_id`, then DELETE the per-card sub-resource. -/
def remove_card_from_dashboard (env : HttpEnv) (args : Json) : ToolRun :=
  let dashboardId := args.get "dashboard_id"
  let dashcardId := args.get "dashcard_id"
  if !dashboardId.truthy then
    .fail (.mcp ⟨.invalidParams, "Dashboard ID is required for remove_card_from_dashboard"⟩) []
  else if !dashcardId.truthy then
    .fail (.mcp ⟨.invalidParams, "Dashcard ID is required for remove_card_from_dashboard"⟩) []
  else
    let call : HttpCall := ⟨.delete,
      "/api/dashboard/" ++ dashboardId.jsToString ++ "/cards/" ++ dashcardId.jsToString, none⟩
    match env call with
    | .ok _ =>
        .ok ⟨["Card " ++ dashcardId.jsToString ++ " removed from dashboard "
          ++ dashboardId.jsToString ++ "."], false⟩ [call]
    | .error e => .fail (.axiosFail e) [call]

/-- The per-entry rewrite of `update_dashboard_card`: the targeted
dashcard takes the supplied grid fields (ternary on `undefined`) and
parameter mappings; every other entry is re-shaped canonically. -/
def updateDashcardEntry (dashcardId parameterMappings updateFields dc : Json) : Json :=
  if (dc.get "id").strictEq dashcardId then
    .obj [("id", dc.get "id"), ("card_id", dc.get "card_id"),
      ("row", (updateFields.get "row").orDefault (dc.get "row")),
      ("col", (updateFields.get "col").orDefault (dc.get "col")),
      ("size_x", (updateFields.get "size_x").orDefault (dc.get "size_x")),
      ("size_y", (updateFields.get "size_y").orDefault (dc.get "size_y")),
      ("series", (dc.get "series").orFalsy (.arr [])),
      ("visualization_settings", (dc.get "visualization_settings").orFalsy (.obj [])),
      ("parameter_mappings",
        parameterMappings.orDefault ((dc.get "parameter_mappings").orFalsy (.arr [])))]
  else
    formatDashcard dc

/-- `update_dashboard_card`: require truthy `dashboard_id` and
`dashcard_id` and at least one update field (or explicit
`parameter_mappings`); GET the dashboard, rewrite the matching entry,
and PUT the whole list back. -/
def update_dashboard_card (env : HttpEnv) (args : Json) : ToolRun :=
  let dashboardId := args.get "dashboard_id"
  let dashcardId := args.get "dashcard_id"
  let parameterMappings := args.get "parameter_mappings"
  let updateFields :=
    ((args.removeField "dashboard_id").removeField "dashcard_id").removeField "parameter_mappings"
  if !dashboardId.truthy then
    .fail (.mcp ⟨.invalidParams, "Dashboard ID is required for update_dashboard_card"⟩) []
  else if !dashcardId.truthy then
    .fail (.mcp ⟨.invalidParams, "Dashcard ID is required for update_dashboard_card"⟩) []
  else if updateFields.fieldCount = 0 && parameterMappings.isUndefined then
    .fail (.mcp ⟨.invalidParams, "No fields provided for update_dashboard_card"⟩) []
  else
    let getCall : HttpCall := ⟨.get, "/api/dashboard/" ++ dashboardId.jsToString, none⟩
    match env getCall with
    | .error e => .fail (.axiosFail e) [getCall]
    | .ok dashData =>
        let existingCards := (dashData.get "dashcards").orFalsy (.arr [])
        let updatedCards :=
          existingCards.asArray.map (updateDashcardEntry dashcardId parameterMappings updateFields)
        fetchAndPretty env
          ⟨.put, "/api/dashboard/" ++ dashboardId.jsToString ++ "/cards",
            some (.obj [("cards", .arr updatedCards)])⟩
          [getCall]

/-- The synthetic dashcard of `create_dashboard_only_card`: placeholder
id `-1`, a null card reference, and the card's definition nested under
`visualization_settings.virtual_card`. -/
def virtualDashcard (args : Json) : Json :=
  .obj [("id", .num (-1)), ("card_id", .null),
    ("row", (args.get "row").orDefault (.num 0)),
    ("col", (args.get "col").orDefault (.num 0)),
    ("size_x", (args.get "size_x").orDefault (.num 4)),
    ("size_y", (args.get "size_y").orDefault (.num 4)),
    ("series", .arr []), ("parameter_mappings", .arr []),
    ("visualization_settings",
      (args.get "visualization_settings").spread
        [("virtual_card", .obj [("name", args.get "name"), ("display", args.get "display"),
          ("visualization_settings", args.get "visualization_settings"),
          ("dataset_query", args.get "dataset_query")])])]

/-- `create_dashboard_only_card`: require a truthy `dashboard_id` and
the four truthy card fields; GET the dashboard, append the virtual
dashcard to the re-shaped existing entries, and PUT the list back. -/
def create_dashboard_only_card (env : HttpEnv) (args : Json) : ToolRun :=
  let dashboardId := args.get "dashboard_id"
  if !dashboardId.truthy then
    .fail (.mcp ⟨.invalidParams, "Dashboard ID is required for create_dashboard_only_card"⟩) []
  else if !(args.get "name").truthy || !(args.get "dataset_query").truthy
      || !(args.get "display").truthy || !(args.get "visualization_settings").truthy then
    .fail (.mcp ⟨.invalidParams,
      "Missing required fields: name, dataset_query, display, visualization_settings"⟩) []
  else
    let getCall : HttpCall := ⟨.get, "/api/dashboard/" ++ dashboardId.jsToString, none⟩
    match env getCall with
    | .error e => .fail (.axiosFail e) [getCall]
    | .ok dashData =>
        let existingCards := (dashData.get "dashcards").orFalsy (.arr [])
        let allCards := existingCards.asArray.map formatDashcard ++ [virtualDashcard args]
        fetchAndPretty env
          ⟨.put, "/api/dashboard/" ++ dashboardId.jsToString ++ "/cards",
            some (.obj [("cards", .arr allCards)])⟩
          [getCall]

/-! ### Tool dispatch -/

/-- The 19 tool names of the static catalog. -/
def knownToolNames : List String :=
  ["list_dashboards", "list_cards", "list_databases", "list_collections",
   "get_database", "get_database_metadata", "execute_card", "get_dashboard_cards",
   "execute_query", "create_card", "update_card", "delete_card",
   "create_dashboard", "update_dashboard", "delete_dashboard",
   "add_card_to_dashboard", "remove_card_from_dashboard", "update_dashboard_card",
   "create_dashboard_only_card"]

/-- The switch of the `tools/call` handler: route the named tool to its
body; an unrecognized name produces an error-flagged reply (not a
thrown error). -/
def toolBody (baseURL : String) (env : HttpEnv) (name : String) (args : Json) : ToolRun :=
  if name = "list_dashboards" then list_dashboards env
  else if name = "list_cards" then list_cards env args
  else if name = "list_databases" then list_databases env
  else if name = "list_collections" then list_collections env
  else if name = "get_database" then get_database env args
  else if name = "get_database_metadata" then get_database_metadata env args
  else if name = "execute_card" then execute_card env args
  else if name = "get_dashboard_cards" then get_dashboard_cards env args
  else if name = "execute_query" then execute_query env args
  else if name = "create_card" then create_card baseURL env args
  else if name = "update_card" then update_card env args
  else if name = "delete_card" then delete_card env args
  else if name = "create_dashboard" then create_dashboard baseURL env args
  else if name = "update_dashboard" then update_dashboard env args
  else if name = "delete_dashboard" then delete_dashboard env args
  else if name = "add_card_to_dashboard" then add_card_to_dashboard env args
  else if name = "remove_card_from_dashboard" then remove_card_from_dashboard env args
  else if name = "update_dashboard_card" then update_dashboard_card env args
  else if name = "create_dashboard_only_card" then create_dashboard_only_card env args
  else .ok ⟨["Unknown tool: " ++ name], true⟩ []

/-- The catch block wrapped around the switch: an axios error becomes a
normal-shaped `isError` reply embedding the service's message; any
other thrown error (the validation `McpError`s) is rethrown to the
protocol layer. -/
def handleToolCall (baseURL : String) (env : HttpEnv) (name : String) (args : Json) :
    CallOutcome :=
  match toolBody baseURL env name args with
  | .ok r trace => .reply r trace
  | .fail (.axiosFail e) trace =>
      .reply ⟨["Metabase API error: " ++ e.displayMessage], true⟩ trace
  | .fail (.mcp e) trace => .protocolError e trace

/-! ### Theorems -/

/-- With a cached credential, any sequence of invocations returns the
stored token every time and issues no login POST. -/
theorem runGetSessionToken_cached (logins : List LoginResult) (st : SessionState) (tok : String)
    (h : st.sessionToken = some tok) :
    runGetSessionToken logins st =
      (List.replicate logins.length (.ok tok), st, 0) := by
  induction logins with
  | nil => simp [runGetSessionToken]
  | cons l ls ih =>
      simp [runGetSessionToken, getSessionToken, h, ih, List.replicate_succ]

/-- C1: in username/password mode a failed login POST propagates an
`internal_error` "authentication failed" error and caches nothing (no
token, no session header), so the next invocation retries the login; a
successful login stores the returned token and installs it as the
default session header; a cached token is returned with no network
call; and across any sequence of invocations whose first `k` login
attempts fail and whose next attempt succeeds, exactly `k + 1` login
POSTs happen in total — exactly one of them successful — and every
invocation after the success returns the stored token with no further
network call. -/
theorem getSessionToken_contract :
    (∀ st : SessionState, st.sessionToken = none →
      getSessionToken .failure st =
        (.error ⟨.internalError, "Failed to authenticate with Metabase"⟩, st, 1)) ∧
    (∀ (st : SessionState) (tok : String), st.sessionToken = none →
      getSessionToken (.success tok) st = (.ok tok, ⟨some tok, some tok⟩, 1)) ∧
    (∀ (st : SessionState) (tok : String) (login : LoginResult), st.sessionToken = some tok →
      getSessionToken login st = (.ok tok, st, 0)) ∧
    (∀ (k : Nat) (tok : String) (rest : List LoginResult),
      runGetSessionToken (List.replicate k .failure ++ .success tok :: rest) ⟨none, none⟩ =
        (List.replicate k (.error ⟨.internalError, "Failed to authenticate with Metabase"⟩)
            ++ .ok tok :: List.replicate rest.length (.ok tok),
          ⟨some tok, some tok⟩, k + 1)) := by
  refine ⟨?_, ?_, ?_, ?_⟩
  · intro st h
    simp [getSessionToken, h]
  · intro st tok h
    simp [getSessionToken, h]
  · intro st tok login h
    simp [getSessionToken, h]
  · intro k tok rest
    induction k with
    | zero =>
        simp [runGetSessionToken, getSessionToken,
          runGetSessionToken_cached rest ⟨some tok, some tok⟩ tok rfl]
    | succ n ih =>
        simp only [List.replicate_succ, List.cons_append, runGetSessionToken,
          getSessionToken]
        simp [ih]
        omega

/-- Witness for `getSessionToken_contract`: a failing first login on the
unset state, then a run with one failure, one success and one further
invocation, issuing two login POSTs of which one succeeds. -/
theorem getSessionToken_contract_witness :
    getSessionToken .failure ⟨none, none⟩ =
      (.error ⟨.internalError, "Failed to authenticate with Metabase"⟩, ⟨none, none⟩, 1) ∧
    runGetSessionToken [.failure, .success "tok123", .failure] ⟨none, none⟩ =
      ([.error ⟨.internalError, "Failed to authenticate with Metabase"⟩,
          .ok "tok123", .ok "tok123"],
        ⟨some "tok123", some "tok123"⟩, 2) := by
  constructor
  · exact getSessionToken_contract.1 ⟨none, none⟩ rfl
  · have h := getSessionToken_contract.2.2.2 1 "tok123" [.failure]
    simpa using h

/-- C3 counterexample: the claim demands a fatal startup error whenever
only one of username/password is supplied, and that exactly one auth
mode holds whenever startup succeeds; but with an API key configured,
startup succeeds both with a partial username/password pair and with a
complete one (where both auth modes hold at once, so exactly-one is
false). -/
theorem startup_claim_counterexample :
    (incompleteUserPassPair ⟨some "http://mb.internal", some "alice", none, some "key123"⟩ = true ∧
      (startup ⟨some "http://mb.internal", some "alice", none, some "key123"⟩).isOk = true) ∧
    ((startup ⟨some "http://mb.internal", some "alice", some "pw", some "key123"⟩).isOk = true ∧
      exactlyOneAuthMode ⟨some "http://mb.internal", some "alice", some "pw", some "key123"⟩
        = false) := by
  decide

/-- C3 (amended): startup succeeds exactly when the base URL is set and
at least one auth mode is complete — an API key, or both username and
password (the API key takes precedence when both modes are configured,
and a partial pair alongside an API key is accepted); any other
configuration fails before any request handler is registered, and
handlers are registered exactly on success. -/
theorem startup_auth_validation (c : Config) :
    ((startup c).isOk = true ↔
      (envTruthy c.metabaseUrl = true ∧
        (apiKeyPresent c = true ∨ userPassBothPresent c = true))) ∧
    (∀ s : ServerInit, startup c = .ok s → s.handlersRegistered = true) := by
  cases hu : envTruthy c.metabaseUrl <;> cases ha : envTruthy c.metabaseApiKey <;>
    cases hn : envTruthy c.metabaseUsername <;> cases hp : envTruthy c.metabasePassword <;>
    constructor <;>
    simp_all [startup, apiKeyPresent, userPassBothPresent, Except.isOk, Except.toBool]

/-- Witness for `startup_auth_validation` at an API-key configuration. -/
theorem startup_auth_validation_witness :
    (startup ⟨some "http://mb.internal", none, none, some "key123"⟩).isOk = true ∧
    ServerInit.handlersRegistered ⟨true, some "api_key_used", true⟩ = true := by
  constructor
  · exact ((startup_auth_validation ⟨some "http://mb.internal", none, none, some "key123"⟩).1).2
      (by decide)
  · exact (startup_auth_validation ⟨some "http://mb.internal", none, none, some "key123"⟩).2
      ⟨true, some "api_key_used", true⟩ rfl

/-- The dashboard pattern cannot match a URI that starts with the card
prefix: the two prefixes diverge inside their constant parts. -/
theorem dashboardPat_ne_cardPat (t : List Char) :
    ("metabase://dashboard/".data.isPrefixOf ("metabase://card/".data ++ t)) = false := rfl

/-- The dashboard pattern cannot match a URI that starts with the
database prefix. -/
theorem dashboardPat_ne_databasePat (t : List Char) :
    ("metabase://dashboard/".data.isPrefixOf ("metabase://database/".data ++ t)) = false := rfl

/-- The card pattern cannot match a URI that starts with the database
prefix. -/
theorem cardPat_ne_databasePat (t : List Char) :
    ("metabase://card/".data.isPrefixOf ("metabase://database/".data ++ t)) = false := rfl

/-- A URI matching one kind's pattern cannot match a pattern whose
constant prefix differs inside the matched prefix. -/
theorem matchIdPattern_excl (patA patB uri idStr : String)
    (h : matchIdPattern patA uri = some idStr)
    (hAB : ∀ t : List Char, (patB.data.isPrefixOf (patA.data ++ t)) = false) :
    matchIdPattern patB uri = none := by
  unfold matchIdPattern at h
  split at h
  case isTrue hpre =>
    rw [List.isPrefixOf_iff_prefix] at hpre
    obtain ⟨t, ht⟩ := hpre
    unfold matchIdPattern
    rw [← ht, hAB t]
    simp
  case isFalse hpre =>
    simp at h

/-- C4: a `resources/read` URI matching none of the three patterns
fails with an `invalid_request` error naming the URI and issues no HTTP
call; a matching URI issues exactly one GET to the corresponding
endpoint and returns its JSON body pretty-printed as the sole content
item tagged with the original URI. -/
theorem readResource_contract :
    (∀ (env : HttpEnv) (uri : String),
      matchIdPattern "metabase://dashboard/" uri = none →
      matchIdPattern "metabase://card/" uri = none →
      matchIdPattern "metabase://database/" uri = none →
      readResource env uri = (.error ⟨.invalidRequest, "Invalid URI format: " ++ uri⟩, [])) ∧
    (∀ (env : HttpEnv) (uri idStr : String) (data : Json),
      matchIdPattern "metabase://dashboard/" uri = some idStr →
      env ⟨.get, "/api/dashboard/" ++ idStr, none⟩ = .ok data →
      readResource env uri =
        (.ok ⟨[⟨uri, "application/json", Json.pretty data⟩]⟩,
          [⟨.get, "/api/dashboard/" ++ idStr, none⟩])) ∧
    (∀ (env : HttpEnv) (uri idStr : String) (data : Json),
      matchIdPattern "metabase://card/" uri = some idStr →
      env ⟨.get, "/api/card/" ++ idStr, none⟩ = .ok data →
      readResource env uri =
        (.ok ⟨[⟨uri, "application/json", Json.pretty data⟩]⟩,
          [⟨.get, "/api/card/" ++ idStr, none⟩])) ∧
    (∀ (env : HttpEnv) (uri idStr : String) (data : Json),
      matchIdPattern "metabase://database/" uri = some idStr →
      env ⟨.get, "/api/database/" ++ idStr, none⟩ = .ok data →
      readResource env uri =
        (.ok ⟨[⟨uri, "application/json", Json.pretty data⟩]⟩,
          [⟨.get, "/api/database/" ++ idStr, none⟩])) := by
  refine ⟨?_, ?_, ?_, ?_⟩
  · intro env uri h1 h2 h3
    simp [readResource, h1, h2, h3]
  · intro env uri idStr data hm henv
    simp [readResource, hm, readResourceFetch, henv]
  · intro env uri idStr data hm henv
    have hd := matchIdPattern_excl "metabase://card/" "metabase://dashboard/" uri idStr hm
      dashboardPat_ne_cardPat
    simp [readResource, hd, hm, readResourceFetch, henv]
  · intro env uri idStr data hm henv
    have hd := matchIdPattern_excl "metabase://database/" "metabase://dashboard/" uri idStr hm
      dashboardPat_ne_databasePat
    have hc := matchIdPattern_excl "metabase://database/" "metabase://card/" uri idStr hm
      cardPat_ne_databasePat
    simp [readResource, hd, hc, hm, readResourceFetch, henv]

/-- Witness for `readResource_contract`: the unparseable URI
`metabase://widget/5` is rejected with no HTTP call, and
`metabase://dashboard/42` issues the single GET. -/
theorem readResource_contract_witness :
    readResource (fun _ => .error ⟨"down", .undefined⟩) "metabase://widget/5" =
      (.error ⟨.invalidRequest, "Invalid URI format: metabase://widget/5"⟩, []) ∧
    readResource
        (fun c => if c.path = "/api/dashboard/42" then .ok (.obj [("id", .num 42)])
          else .error ⟨"down", .undefined⟩)
        "metabase://dashboard/42" =
      (.ok ⟨[⟨"metabase://dashboard/42", "application/json",
          Json.pretty (.obj [("id", .num 42)])⟩]⟩,
        [⟨.get, "/api/dashboard/42", none⟩]) := by
  constructor
  · exact readResource_contract.1 _ "metabase://widget/5" rfl rfl rfl
  · exact readResource_contract.2.1 _ "metabase://dashboard/42" "42" (.obj [("id", .num 42)])
      rfl rfl

/-- C2: `execute_query` with truthy `database_id` and `query` first
GETs the database record to read its engine; when the engine is
`"mongo"` and `collection` is not supplied it fails `invalid_params`
having made the GET but no POST; when `collection` is supplied it
POSTs `/api/dataset` a native body tagged with the collection and the
stringified query; for any other engine it POSTs the same shape whose
native object has no collection field. -/
theorem execute_query_contract (env : HttpEnv) (args dbData : Json)
    (hdb : (args.get "database_id").truthy = true)
    (hq : (args.get "query").truthy = true)
    (henv : env ⟨.get, "/api/database/" ++ (args.get "database_id").jsToString, none⟩
      = .ok dbData) :
    ((dbData.get "engine").isStr "mongo" = true → (args.get "collection").truthy = false →
      execute_query env args =
        .fail (.mcp ⟨.invalidParams, "Collection name is required for MongoDB queries"⟩)
          [⟨.get, "/api/database/" ++ (args.get "database_id").jsToString, none⟩]) ∧
    ((dbData.get "engine").isStr "mongo" = true → (args.get "collection").truthy = true →
      (execute_query env args).trace =
        [⟨.get, "/api/database/" ++ (args.get "database_id").jsToString, none⟩,
          ⟨.post, "/api/dataset", some (.obj [("type", .str "native"),
            ("native", .obj [("collection", args.get "collection"),
              ("query", .str (args.get "query").jsToString), ("template_tags", .obj [])]),
            ("parameters", (args.get "native_parameters").orFalsy (.arr [])),
            ("database", args.get "database_id")])⟩]) ∧
    ((dbData.get "engine").isStr "mongo" = false →
      (execute_query env args).trace =
        [⟨.get, "/api/database/" ++ (args.get "database_id").jsToString, none⟩,
          ⟨.post, "/api/dataset", some (.obj [("type", .str "native"),
            ("native", .obj [("query", args.get "query"), ("template_tags", .obj [])]),
            ("parameters", (args.get "native_parameters").orFalsy (.arr [])),
            ("database", args.get "database_id")])⟩]) := by
  refine ⟨?_, ?_, ?_⟩
  · intro hm hc
    simp [execute_query, hdb, hq, henv, hm, hc]
  · intro hm hc
    cases hpost : env ⟨.post, "/api/dataset", some (.obj [("type", .str "native"),
        ("native", .obj [("collection", args.get "collection"),
          ("query", .str (args.get "query").jsToString), ("template_tags", .obj [])]),
        ("parameters", (args.get "native_parameters").orFalsy (.arr [])),
        ("database", args.get "database_id")])⟩ <;>
      simp [execute_query, hdb, hq, henv, hm, hc, fetchAndPretty, hpost, ToolRun.trace]
  · intro hm
    cases hpost : env ⟨.post, "/api/dataset", some (.obj [("type", .str "native"),
        ("native", .obj [("query", args.get "query"), ("template_tags", .obj [])]),
        ("parameters", (args.get "native_parameters").orFalsy (.arr [])),
        ("database", args.get "database_id")])⟩ <;>
      simp [execute_query, hdb, hq, henv, hm, fetchAndPretty, hpost, ToolRun.trace]

/-- Witness for `execute_query_contract`: against a mongo-engine
database, a call without `collection` stops after the GET with an
`invalid_params` failure, and a call with `collection: "events"` issues
the GET followed by the `/api/dataset` POST tagged with the
collection. -/
theorem execute_query_contract_witness :
    execute_query
        (fun c => if c.method = .get then .ok (.obj [("engine", .str "mongo")]) else .ok (.obj []))
        (.obj [("database_id", .num 7), ("query", .str "[\x7b\"$limit\":10\x7d]")]) =
      .fail (.mcp ⟨.invalidParams, "Collection name is required for MongoDB queries"⟩)
        [⟨.get, "/api/database/7", none⟩] ∧
    (execute_query
        (fun c => if c.method = .get then .ok (.obj [("engine", .str "mongo")]) else .ok (.obj []))
        (.obj [("database_id", .num 7), ("query", .str "[\x7b\"$limit\":10\x7d]"),
          ("collection", .str "events")])).trace =
      [⟨.get, "/api/database/7", none⟩,
        ⟨.post, "/api/dataset", some (.obj [("type", .str "native"),
          ("native", .obj [("collection", .str "events"),
            ("query", .str "[\x7b\"$limit\":10\x7d]"), ("template_tags", .obj [])]),
          ("parameters", .arr []), ("database", .num 7)])⟩] := by
  constructor
  · exact (execute_query_contract
      (fun c => if c.method = .get then .ok (.obj [("engine", .str "mongo")]) else .ok (.obj []))
      (.obj [("database_id", .num 7), ("query", .str "[\x7b\"$limit\":10\x7d]")])
      (.obj [("engine", .str "mongo")]) rfl rfl rfl).1 rfl rfl
  · exact (execute_query_contract
      (fun c => if c.method = .get then .ok (.obj [("engine", .str "mongo")]) else .ok (.obj []))
      (.obj [("database_id", .num 7), ("query", .str "[\x7b\"$limit\":10\x7d]"),
        ("collection", .str "events")])
      (.obj [("engine", .str "mongo")]) rfl rfl rfl).2.1 rfl rfl

/-- C5: `delete_card` and `delete_dashboard` with a truthy entity id:
a `hard_delete: true` argument issues exactly one DELETE and no PUT;
`hard_delete` false or absent issues exactly one PUT with body
`archived: true` and no DELETE, and the confirmation text includes the
response body when one is present. -/
theorem delete_tools_contract (env : HttpEnv) (args : Json) :
    ((args.get "card_id").truthy = true →
      (args.get "hard_delete" = .bool true →
        (delete_card env args).trace =
          [⟨.delete, "/api/card/" ++ (args.get "card_id").jsToString, none⟩]) ∧
      ((args.get "hard_delete" = .bool false ∨ args.get "hard_delete" = .undefined) →
        (delete_card env args).trace =
          [⟨.put, "/api/card/" ++ (args.get "card_id").jsToString,
            some (.obj [("archived", .bool true)])⟩] ∧
        (∀ data : Json,
          env ⟨.put, "/api/card/" ++ (args.get "card_id").jsToString,
            some (.obj [("archived", .bool true)])⟩ = .ok data →
          delete_card env args =
            .ok ⟨[if data.truthy then
                "Card " ++ (args.get "card_id").jsToString ++ " archived. Details: "
                  ++ Json.pretty data
              else "Card " ++ (args.get "card_id").jsToString ++ " archived."], false⟩
              [⟨.put, "/api/card/" ++ (args.get "card_id").jsToString,
                some (.obj [("archived", .bool true)])⟩]))) ∧
    ((args.get "dashboard_id").truthy = true →
      (args.get "hard_delete" = .bool true →
        (delete_dashboard env args).trace =
          [⟨.delete, "/api/dashboard/" ++ (args.get "dashboard_id").jsToString, none⟩]) ∧
      ((args.get "hard_delete" = .bool false ∨ args.get "hard_delete" = .undefined) →
        (delete_dashboard env args).trace =
          [⟨.put, "/api/dashboard/" ++ (args.get "dashboard_id").jsToString,
            some (.obj [("archived", .bool true)])⟩] ∧
        (∀ data : Json,
          env ⟨.put, "/api/dashboard/" ++ (args.get "dashboard_id").jsToString,
            some (.obj [("archived", .bool true)])⟩ = .ok data →
          delete_dashboard env args =
            .ok ⟨[if data.truthy then
                "Dashboard " ++ (args.get "dashboard_id").jsToString ++ " archived. Details: "
                  ++ Json.pretty data
              else "Dashboard " ++ (args.get "dashboard_id").jsToString ++ " archived."], false⟩
              [⟨.put, "/api/dashboard/" ++ (args.get "dashboard_id").jsToString,
                some (.obj [("archived", .bool true)])⟩]))) := by
  constructor
  · intro hid
    constructor
    · intro h
      cases hc : env ⟨.delete, "/api/card/" ++ (args.get "card_id").jsToString, none⟩ <;>
        simp [delete_card, hid, h, Json.orDefault, hc, ToolRun.trace]
    · intro h
      constructor
      · rcases h with h | h <;>
          cases hc : env ⟨.put, "/api/card/" ++ (args.get "card_id").jsToString,
            some (.obj [("archived", .bool true)])⟩ <;>
          simp [delete_card, hid, h, Json.orDefault, hc, ToolRun.trace]
      · intro data hdata
        rcases h with h | h <;>
          simp [delete_card, hid, h, Json.orDefault, hdata]
  · intro hid
    constructor
    · intro h
      cases hc : env ⟨.delete, "/api/dashboard/" ++ (args.get "dashboard_id").jsToString,
          none⟩ <;>
        simp [delete_dashboard, hid, h, Json.orDefault, hc, ToolRun.trace]
    · intro h
      constructor
      · rcases h with h | h <;>
          cases hc : env ⟨.put, "/api/dashboard/" ++ (args.get "dashboard_id").jsToString,
            some (.obj [("archived", .bool true)])⟩ <;>
          simp [delete_dashboard, hid, h, Json.orDefault, hc, ToolRun.trace]
      · intro data hdata
        rcases h with h | h <;>
          simp [delete_dashboard, hid, h, Json.orDefault, hdata]

/-- Witness for `delete_tools_contract`: `delete_card` on card 5 with
`hard_delete: true` issues the single DELETE; with `hard_delete`
absent it issues the single archive PUT and reports the response
body. -/
theorem delete_tools_contract_witness :
    (delete_card (fun _ => .ok (.obj [("archived", .bool true)]))
      (.obj [("card_id", .num 5), ("hard_delete", .bool true)])).trace =
      [⟨.delete, "/api/card/5", none⟩] ∧
    delete_card (fun _ => .ok (.obj [("archived", .bool true)])) (.obj [("card_id", .num 5)]) =
      .ok ⟨["Card 5 archived. Details: " ++ Json.pretty (.obj [("archived", .bool true)])],
          false⟩
        [⟨.put, "/api/card/5", some (.obj [("archived", .bool true)])⟩] := by
  constructor
  · exact ((delete_tools_contract (fun _ => .ok (.obj [("archived", .bool true)]))
      (.obj [("card_id", .num 5), ("hard_delete", .bool true)])).1 rfl).1 rfl
  · have h := (((delete_tools_contract (fun _ => .ok (.obj [("archived", .bool true)]))
      (.obj [("card_id", .num 5)])).1 rfl).2 (.inr rfl)).2 (.obj [("archived", .bool true)]) rfl
    simpa using h

/-- Lookup skips a block of fields that does not contain the key. -/
theorem Json.getFields_append (fs gs : List (String × Json)) (k : String)
    (h : k ∉ fs.map Prod.fst) :
    Json.getFields (fs ++ gs) k = Json.getFields gs k := by
  induction fs with
  | nil => rfl
  | cons p ps ih =>
      simp only [List.map_cons, List.mem_cons, not_or] at h
      simp [Json.getFields, Ne.symm h.1, ih h.2]

/-- The `_link` field added by a create tool's spread is visible in the
result whenever the raw response did not already carry one. -/
theorem Json.spread_get_link (fs : List (String × Json)) (a b : Json)
    (h : "_link" ∉ fs.map Prod.fst) :
    ((Json.obj fs).spread [("_link", a), ("_message", b)]).get "_link" = a := by
  have hmap : "_link" ∉ (fs.map (fun p =>
      (p.1, ([("_link", a), ("_message", b)].lookup p.1).getD p.2))).map Prod.fst := by
    simpa using h
  have hcont : ((fs.map Prod.fst).contains "_link") = false := by
    simpa using h
  simp only [Json.spread, Json.get]
  rw [Json.getFields_append _ _ _ hmap]
  simp [List.filter_cons, h, Json.getFields]

/-- C6: `add_card_to_dashboard` with truthy ids, on a dashboard whose
GET returns `K` existing dashcards, issues exactly the GET followed by
the whole-list PUT whose `cards` array has length `K + 1`; the appended
entry carries the supplied `card_id`, the placeholder id `-1` (distinct
from every existing id when the service-assigned ids differ from `-1`),
and grid defaults row 0, col 0, size 4 by 4 when not supplied; every
pre-existing entry is re-shaped canonically with `series`,
`visualization_settings` and `parameter_mappings` defaulted to empty
when missing. -/
theorem add_card_to_dashboard_contract (env : HttpEnv) (args dashData : Json) (xs : List Json)
    (hd : (args.get "dashboard_id").truthy = true)
    (hc : (args.get "card_id").truthy = true)
    (henv : env ⟨.get, "/api/dashboard/" ++ (args.get "dashboard_id").jsToString, none⟩
      = .ok dashData)
    (hcards : dashData.get "dashcards" = .arr xs) :
    ((add_card_to_dashboard env args).trace =
      [⟨.get, "/api/dashboard/" ++ (args.get "dashboard_id").jsToString, none⟩,
        ⟨.put, "/api/dashboard/" ++ (args.get "dashboard_id").jsToString ++ "/cards",
          some (.obj [("cards", .arr (xs.map formatDashcard ++ [newDashcard args]))])⟩]) ∧
    (xs.map formatDashcard ++ [newDashcard args]).length = xs.length + 1 ∧
    (newDashcard args).get "card_id" = args.get "card_id" ∧
    (newDashcard args).get "id" = .num (-1) ∧
    (args.get "row" = .undefined → (newDashcard args).get "row" = .num 0) ∧
    (args.get "col" = .undefined → (newDashcard args).get "col" = .num 0) ∧
    (args.get "size_x" = .undefined → (newDashcard args).get "size_x" = .num 4) ∧
    (args.get "size_y" = .undefined → (newDashcard args).get "size_y" = .num 4) ∧
    (∀ dc : Json,
      (formatDashcard dc).get "id" = dc.get "id" ∧
      ((dc.get "series").truthy = false → (formatDashcard dc).get "series" = .arr []) ∧
      ((dc.get "visualization_settings").truthy = false →
        (formatDashcard dc).get "visualization_settings" = .obj []) ∧
      ((dc.get "parameter_mappings").truthy = false →
        (formatDashcard dc).get "parameter_mappings" = .arr [])) ∧
    ((∀ dc ∈ xs, dc.get "id" ≠ .num (-1)) →
      ∀ c ∈ xs.map formatDashcard, c.get "id" ≠ (newDashcard args).get "id") := by
  refine ⟨?_, by simp, rfl, rfl, ?_, ?_, ?_, ?_, ?_, ?_⟩
  · cases hput : env ⟨.put, "/api/dashboard/" ++ (args.get "dashboard_id").jsToString ++ "/cards",
        some (.obj [("cards", .arr (xs.map formatDashcard ++ [newDashcard args]))])⟩ <;>
      simp [add_card_to_dashboard, hd, hc, henv, hcards, Json.orFalsy, Json.asArray,
        fetchAndPretty, hput, ToolRun.trace]
  · intro h
    have hrw : (newDashcard args).get "row" = (args.get "row").orDefault (.num 0) := rfl
    rw [hrw, h]
    rfl
  · intro h
    have hrw : (newDashcard args).get "col" = (args.get "col").orDefault (.num 0) := rfl
    rw [hrw, h]
    rfl
  · intro h
    have hrw : (newDashcard args).get "size_x" = (args.get "size_x").orDefault (.num 4) := rfl
    rw [hrw, h]
    rfl
  · intro h
    have hrw : (newDashcard args).get "size_y" = (args.get "size_y").orDefault (.num 4) := rfl
    rw [hrw, h]
    rfl
  · intro dc
    refine ⟨rfl, ?_, ?_, ?_⟩ <;> intro h
    · have hrw : (formatDashcard dc).get "series" = (dc.get "series").orFalsy (.arr []) := rfl
      rw [hrw]
      simp [Json.orFalsy, h]
    · have hrw : (formatDashcard dc).get "visualization_settings"
          = (dc.get "visualization_settings").orFalsy (.obj []) := rfl
      rw [hrw]
      simp [Json.orFalsy, h]
    · have hrw : (formatDashcard dc).get "parameter_mappings"
          = (dc.get "parameter_mappings").orFalsy (.arr []) := rfl
      rw [hrw]
      simp [Json.orFalsy, h]
  · intro h c hmem
    obtain ⟨dc, hdc, rfl⟩ := List.mem_map.1 hmem
    have hid : (formatDashcard dc).get "id" = dc.get "id" := rfl
    rw [hid]
    exact h dc hdc

/-- Witness for `add_card_to_dashboard_contract`: adding card 9 to a
dashboard holding one dashcard (id 3) PUTs a two-entry list whose new
entry has id `-1` and the supplied card id. -/
theorem add_card_to_dashboard_contract_witness :
    (add_card_to_dashboard
        (fun c => if c.method = .get then
            .ok (.obj [("dashcards", .arr [.obj [("id", .num 3), ("card_id", .num 8),
              ("row", .num 0), ("col", .num 0), ("size_x", .num 4), ("size_y", .num 4)]])])
          else .ok (.obj []))
        (.obj [("dashboard_id", .num 2), ("card_id", .num 9)])).trace =
      [⟨.get, "/api/dashboard/2", none⟩,
        ⟨.put, "/api/dashboard/2/cards",
          some (.obj [("cards", .arr
            ([.obj [("id", .num 3), ("card_id", .num 8),
              ("row", .num 0), ("col", .num 0), ("size_x", .num 4), ("size_y", .num 4)]].map
                formatDashcard
              ++ [newDashcard (.obj [("dashboard_id", .num 2), ("card_id", .num 9)])]))])⟩] ∧
    (newDashcard (.obj [("dashboard_id", .num 2), ("card_id", .num 9)])).get "id"
      = .num (-1) := by
  constructor
  · exact (add_card_to_dashboard_contract
      (fun c => if c.method = .get then
          .ok (.obj [("dashcards", .arr [.obj [("id", .num 3), ("card_id", .num 8),
            ("row", .num 0), ("col", .num 0), ("size_x", .num 4), ("size_y", .num 4)]])])
        else .ok (.obj []))
      (.obj [("dashboard_id", .num 2), ("card_id", .num 9)])
      (.obj [("dashcards", .arr [.obj [("id", .num 3), ("card_id", .num 8),
        ("row", .num 0), ("col", .num 0), ("size_x", .num 4), ("size_y", .num 4)]])])
      [.obj [("id", .num 3), ("card_id", .num 8),
        ("row", .num 0), ("col", .num 0), ("size_x", .num 4), ("size_y", .num 4)]]
      rfl rfl rfl rfl).1
  · exact (add_card_to_dashboard_contract
      (fun c => if c.method = .get then
          .ok (.obj [("dashcards", .arr [.obj [("id", .num 3), ("card_id", .num 8),
            ("row", .num 0), ("col", .num 0), ("size_x", .num 4), ("size_y", .num 4)]])])
        else .ok (.obj []))
      (.obj [("dashboard_id", .num 2), ("card_id", .num 9)])
      (.obj [("dashcards", .arr [.obj [("id", .num 3), ("card_id", .num 8),
        ("row", .num 0), ("col", .num 0), ("size_x", .num 4), ("size_y", .num 4)]])])
      [.obj [("id", .num 3), ("card_id", .num 8),
        ("row", .num 0), ("col", .num 0), ("size_x", .num 4), ("size_y", .num 4)]]
      rfl rfl rfl rfl).2.2.2.1

/-- C7: `update_card` and `update_dashboard` with a truthy entity id:
an argument set that is empty after removing the id fails
`invalid_params` with zero HTTP calls; otherwise exactly one PUT is
issued whose body is exactly the remaining fields, and the response is
returned verbatim (pretty-printed). -/
theorem update_tools_contract (env : HttpEnv) (args : Json) :
    ((args.get "card_id").truthy = true →
      (args.removeField "card_id" = .obj [] →
        update_card env args =
          .fail (.mcp ⟨.invalidParams, "No fields provided for update_card"⟩) []) ∧
      (∀ fs : List (String × Json), args.removeField "card_id" = .obj fs → fs ≠ [] →
        (update_card env args).trace =
          [⟨.put, "/api/card/" ++ (args.get "card_id").jsToString, some (.obj fs)⟩] ∧
        (∀ data : Json,
          env ⟨.put, "/api/card/" ++ (args.get "card_id").jsToString, some (.obj fs)⟩
            = .ok data →
          update_card env args = .ok ⟨[Json.pretty data], false⟩
            [⟨.put, "/api/card/" ++ (args.get "card_id").jsToString, some (.obj fs)⟩]))) ∧
    ((args.get "dashboard_id").truthy = true →
      (args.removeField "dashboard_id" = .obj [] →
        update_dashboard env args =
          .fail (.mcp ⟨.invalidParams, "No fields provided for update_dashboard"⟩) []) ∧
      (∀ fs : List (String × Json), args.removeField "dashboard_id" = .obj fs → fs ≠ [] →
        (update_dashboard env args).trace =
          [⟨.put, "/api/dashboard/" ++ (args.get "dashboard_id").jsToString, some (.obj fs)⟩] ∧
        (∀ data : Json,
          env ⟨.put, "/api/dashboard/" ++ (args.get "dashboard_id").jsToString, some (.obj fs)⟩
            = .ok data →
          update_dashboard env args = .ok ⟨[Json.pretty data], false⟩
            [⟨.put, "/api/dashboard/" ++ (args.get "dashboard_id").jsToString,
              some (.obj fs)⟩]))) := by
  constructor
  · intro hid
    constructor
    · intro hempty
      simp [update_card, hid, hempty, Json.fieldCount]
    · intro fs hrem hne
      have hlen : (Json.obj fs).fieldCount ≠ 0 := by
        simpa [Json.fieldCount] using hne
      constructor
      · cases hc : env ⟨.put, "/api/card/" ++ (args.get "card_id").jsToString,
            some (.obj fs)⟩ <;>
          simp [update_card, hid, hrem, hlen, fetchAndPretty, hc, ToolRun.trace]
      · intro data hdata
        simp [update_card, hid, hrem, hlen, fetchAndPretty, hdata]
  · intro hid
    constructor
    · intro hempty
      simp [update_dashboard, hid, hempty, Json.fieldCount]
    · intro fs hrem hne
      have hlen : (Json.obj fs).fieldCount ≠ 0 := by
        simpa [Json.fieldCount] using hne
      constructor
      · cases hc : env ⟨.put, "/api/dashboard/" ++ (args.get "dashboard_id").jsToString,
            some (.obj fs)⟩ <;>
          simp [update_dashboard, hid, hrem, hlen, fetchAndPretty, hc, ToolRun.trace]
      · intro data hdata
        simp [update_dashboard, hid, hrem, hlen, fetchAndPretty, hdata]

/-- Witness for `update_tools_contract`: `update_dashboard` with only a
`dashboard_id` fails `invalid_params` with no HTTP call, and with one
further field issues the single PUT carrying exactly that field. -/
theorem update_tools_contract_witness :
    update_dashboard (fun _ => .ok (.obj [])) (.obj [("dashboard_id", .num 4)]) =
      .fail (.mcp ⟨.invalidParams, "No fields provided for update_dashboard"⟩) [] ∧
    (update_dashboard (fun _ => .ok (.obj []))
        (.obj [("dashboard_id", .num 4), ("name", .str "New name")])).trace =
      [⟨.put, "/api/dashboard/4", some (.obj [("name", .str "New name")])⟩] := by
  constructor
  · exact ((update_tools_contract (fun _ => .ok (.obj []))
      (.obj [("dashboard_id", .num 4)])).2 rfl).1 rfl
  · exact (((update_tools_contract (fun _ => .ok (.obj []))
      (.obj [("dashboard_id", .num 4), ("name", .str "New name")])).2 rfl).2
        [("name", .str "New name")] rfl (by simp)).1

/-- C8: a successful `create_card` POSTs a body holding exactly the
fields explicitly supplied (`collection_id` and `description` are
included only when not `undefined`), and returns the create response
augmented with a `_link` field equal to `baseURL/question/newId` —
`newId` being the id echoed by the response — and a `_message`
confirmation. -/
theorem create_card_contract (baseURL : String) (env : HttpEnv) (args data : Json)
    (fs : List (String × Json))
    (hname : (args.get "name").truthy = true)
    (hdq : (args.get "dataset_query").truthy = true)
    (hdisp : (args.get "display").truthy = true)
    (hvs : (args.get "visualization_settings").truthy = true)
    (henv : env ⟨.post, "/api/card", some (createCardBody args)⟩ = .ok data)
    (hdata : data = .obj fs)
    (hlink : "_link" ∉ fs.map Prod.fst) :
    (create_card baseURL env args = .ok
      ⟨[Json.pretty (data.spread
          [("_link", .str (baseURL ++ "/question/" ++ (data.get "id").jsToString)),
            ("_message", .str ("Card created successfully! View it at: "
              ++ (baseURL ++ "/question/" ++ (data.get "id").jsToString)))])], false⟩
      [⟨.post, "/api/card", some (createCardBody args)⟩]) ∧
    ((data.spread
        [("_link", .str (baseURL ++ "/question/" ++ (data.get "id").jsToString)),
          ("_message", .str ("Card created successfully! View it at: "
            ++ (baseURL ++ "/question/" ++ (data.get "id").jsToString)))]).get "_link"
      = .str (baseURL ++ "/question/" ++ (data.get "id").jsToString)) ∧
    (args.get "collection_id" = .undefined → "collection_id" ∉ (createCardBody args).keys) ∧
    (args.get "description" = .undefined → "description" ∉ (createCardBody args).keys) ∧
    (args.get "collection_id" = .undefined → args.get "description" = .undefined →
      (createCardBody args).keys
        = ["name", "dataset_query", "display", "visualization_settings"]) ∧
    (args.get "collection_id" ≠ .undefined →
      (createCardBody args).get "collection_id" = args.get "collection_id") ∧
    (args.get "description" ≠ .undefined →
      (createCardBody args).get "description" = args.get "description") := by
  refine ⟨?_, ?_, ?_, ?_, ?_, ?_, ?_⟩
  · simp [create_card, hname, hdq, hdisp, hvs, henv]
  · subst hdata
    exact Json.spread_get_link fs _ _ hlink
  · intro h
    cases hdesc : args.get "description" <;>
      (simp only [createCardBody, h, hdesc]; simp [Json.keys])
  · intro h
    cases hcoll : args.get "collection_id" <;>
      (simp only [createCardBody, h, hcoll]; simp [Json.keys])
  · intro h1 h2
    simp only [createCardBody, h1, h2]
    simp [Json.keys]
  · intro h
    cases hcoll : args.get "collection_id" <;>
      first
        | exact absurd hcoll h
        | (simp only [createCardBody, hcoll]; simp [Json.get, Json.getFields])
  · intro h
    cases hcoll : args.get "collection_id" <;> cases hdesc : args.get "description" <;>
      first
        | exact absurd hdesc h
        | (simp only [createCardBody, hcoll, hdesc]; simp [Json.get, Json.getFields])

/-- Witness for `create_card_contract`: creating a card whose POST
response echoes id 31 yields a `_link` of `baseURL/question/31`, and
the POST body carries exactly the four supplied fields. -/
theorem create_card_contract_witness :
    ((Json.obj [("id", .num 31)]).spread
        [("_link", .str ("http://mb.internal/question/31")),
          ("_message", .str ("Card created successfully! View it at: "
            ++ "http://mb.internal/question/31"))]).get "_link"
      = .str "http://mb.internal/question/31" ∧
    (createCardBody (.obj [("name", .str "c"), ("dataset_query", .obj [("database", .num 1)]),
        ("display", .str "table"), ("visualization_settings", .obj [])])).keys
      = ["name", "dataset_query", "display", "visualization_settings"] := by
  constructor
  · have h := (create_card_contract "http://mb.internal"
      (fun _ => .ok (.obj [("id", .num 31)]))
      (.obj [("name", .str "c"), ("dataset_query", .obj [("database", .num 1)]),
        ("display", .str "table"), ("visualization_settings", .obj [])])
      (.obj [("id", .num 31)]) [("id", .num 31)]
      rfl rfl rfl rfl rfl rfl (by simp)).2.1
    simpa using h
  · exact (create_card_contract "http://mb.internal"
      (fun _ => .ok (.obj [("id", .num 31)]))
      (.obj [("name", .str "c"), ("dataset_query", .obj [("database", .num 1)]),
        ("display", .str "table"), ("visualization_settings", .obj [])])
      (.obj [("id", .num 31)]) [("id", .num 31)]
      rfl rfl rfl rfl rfl rfl (by simp)).2.2.2.2.1 rfl rfl

/-- C9: a downstream axios failure inside any tool body is caught and
returned as a normal-shaped reply flagged `isError`, whose text embeds
the service's own error message when one is available; a thrown
validation `McpError` is instead raised to the protocol layer; and an
unrecognized tool name yields an error-flagged reply naming the tool,
with no HTTP call and no protocol-level error. -/
theorem tool_dispatch_error_policy :
    (∀ (baseURL : String) (env : HttpEnv) (name : String) (args : Json) (e : AxiosFailure)
        (trace : List HttpCall),
      toolBody baseURL env name args = .fail (.axiosFail e) trace →
      handleToolCall baseURL env name args =
        .reply ⟨["Metabase API error: " ++ e.displayMessage], true⟩ trace) ∧
    (∀ e : AxiosFailure, e.respDataMessage.truthy = true →
      e.displayMessage = e.respDataMessage.jsToString) ∧
    (∀ (baseURL : String) (env : HttpEnv) (name : String) (args : Json) (e : McpError)
        (trace : List HttpCall),
      toolBody baseURL env name args = .fail (.mcp e) trace →
      handleToolCall baseURL env name args = .protocolError e trace) ∧
    (∀ (baseURL : String) (env : HttpEnv) (name : String) (args : Json),
      name ∉ knownToolNames →
      handleToolCall baseURL env name args = .reply ⟨["Unknown tool: " ++ name], true⟩ []) := by
  refine ⟨?_, ?_, ?_, ?_⟩
  · intro baseURL env name args e trace h
    simp [handleToolCall, h]
  · intro e h
    simp [AxiosFailure.displayMessage, h]
  · intro baseURL env name args e trace h
    simp [handleToolCall, h]
  · intro baseURL env name args h
    simp only [knownToolNames, List.mem_cons, List.not_mem_nil, or_false, not_or] at h
    obtain ⟨h1, h2, h3, h4, h5, h6, h7, h8, h9, h10, h11, h12, h13, h14, h15, h16, h17,
      h18, h19⟩ := h
    simp [handleToolCall, toolBody, h1, h2, h3, h4, h5, h6, h7, h8, h9, h10, h11, h12,
      h13, h14, h15, h16, h17, h18, h19]

/-- Witness for `tool_dispatch_error_policy`: a failing downstream GET
inside `list_dashboards` comes back in-band with the service's message,
a missing `database_id` in `get_database` is raised as a protocol
error, and an unknown tool name is reported in-band. -/
theorem tool_dispatch_error_policy_witness :
    handleToolCall "http://mb.internal"
        (fun _ => .error ⟨"socket hang up", .str "Card not found"⟩) "list_dashboards"
        (.obj []) =
      .reply ⟨["Metabase API error: Card not found"], true⟩ [⟨.get, "/api/dashboard", none⟩] ∧
    handleToolCall "http://mb.internal" (fun _ => .ok (.obj [])) "get_database" (.obj []) =
      .protocolError ⟨.invalidParams, "Database ID is required"⟩ [] ∧
    handleToolCall "http://mb.internal" (fun _ => .ok (.obj [])) "bogus_tool" (.obj []) =
      .reply ⟨["Unknown tool: bogus_tool"], true⟩ [] := by
  refine ⟨?_, ?_, ?_⟩
  · exact tool_dispatch_error_policy.1 "http://mb.internal"
      (fun _ => .error ⟨"socket hang up", .str "Card not found"⟩) "list_dashboards" (.obj [])
      ⟨"socket hang up", .str "Card not found"⟩ [⟨.get, "/api/dashboard", none⟩] rfl
  · exact tool_dispatch_error_policy.2.2.1 "http://mb.internal" (fun _ => .ok (.obj []))
      "get_database" (.obj []) ⟨.invalidParams, "Database ID is required"⟩ [] rfl
  · exact tool_dispatch_error_policy.2.2.2 "http://mb.internal" (fun _ => .ok (.obj []))
      "bogus_tool" (.obj []) (by decide)

/-- C10: every tool requiring a numeric id tests presence by JS
truthiness, so an id argument equal to `0` is rejected with exactly the
same `invalid_params` failure as a missing id, with no HTTP call made
by the tool. -/
theorem required_id_zero_rejected (env : HttpEnv) :
    (get_database env (.obj [("database_id", .num 0)]) =
        .fail (.mcp ⟨.invalidParams, "Database ID is required"⟩) [] ∧
      get_database env (.obj []) =
        .fail (.mcp ⟨.invalidParams, "Database ID is required"⟩) []) ∧
    (get_database_metadata env (.obj [("database_id", .num 0)]) =
        .fail (.mcp ⟨.invalidParams, "Database ID is required"⟩) [] ∧
      get_database_metadata env (.obj []) =
        .fail (.mcp ⟨.invalidParams, "Database ID is required"⟩) []) ∧
    (execute_card env (.obj [("card_id", .num 0)]) =
        .fail (.mcp ⟨.invalidParams, "Card ID is required"⟩) [] ∧
      execute_card env (.obj []) =
        .fail (.mcp ⟨.invalidParams, "Card ID is required"⟩) []) ∧
    (get_dashboard_cards env (.obj [("dashboard_id", .num 0)]) =
        .fail (.mcp ⟨.invalidParams, "Dashboard ID is required"⟩) [] ∧
      get_dashboard_cards env (.obj []) =
        .fail (.mcp ⟨.invalidParams, "Dashboard ID is required"⟩) []) ∧
    (execute_query env (.obj [("database_id", .num 0), ("query", .str "SELECT 1")]) =
        .fail (.mcp ⟨.invalidParams, "Database ID is required"⟩) [] ∧
      execute_query env (.obj [("query", .str "SELECT 1")]) =
        .fail (.mcp ⟨.invalidParams, "Database ID is required"⟩) []) ∧
    (update_card env (.obj [("card_id", .num 0), ("name", .str "n")]) =
        .fail (.mcp ⟨.invalidParams, "Card ID is required for update_card"⟩) [] ∧
      update_card env (.obj [("name", .str "n")]) =
        .fail (.mcp ⟨.invalidParams, "Card ID is required for update_card"⟩) []) ∧
    (delete_card env (.obj [("card_id", .num 0)]) =
        .fail (.mcp ⟨.invalidParams, "Card ID is required for delete_card"⟩) [] ∧
      delete_card env (.obj []) =
        .fail (.mcp ⟨.invalidParams, "Card ID is required for delete_card"⟩) []) ∧
    (update_dashboard env (.obj [("dashboard_id", .num 0), ("name", .str "n")]) =
        .fail (.mcp ⟨.invalidParams, "Dashboard ID is required for update_dashboard"⟩) [] ∧
      update_dashboard env (.obj [("name", .str "n")]) =
        .fail (.mcp ⟨.invalidParams, "Dashboard ID is required for update_dashboard"⟩) []) ∧
    (delete_dashboard env (.obj [("dashboard_id", .num 0)]) =
        .fail (.mcp ⟨.invalidParams, "Dashboard ID is required for delete_dashboard"⟩) [] ∧
      delete_dashboard env (.obj []) =
        .fail (.mcp ⟨.invalidParams, "Dashboard ID is required for delete_dashboard"⟩) []) ∧
    (add_card_to_dashboard env (.obj [("dashboard_id", .num 0), ("card_id", .num 5)]) =
        .fail (.mcp ⟨.invalidParams, "Dashboard ID is required for add_card_to_dashboard"⟩) [] ∧
      add_card_to_dashboard env (.obj [("card_id", .num 5)]) =
        .fail (.mcp ⟨.invalidParams, "Dashboard ID is required for add_card_to_dashboard"⟩) [] ∧
      add_card_to_dashboard env (.obj [("dashboard_id", .num 2), ("card_id", .num 0)]) =
        .fail (.mcp ⟨.invalidParams, "Card ID is required for add_card_to_dashboard"⟩) [] ∧
      add_card_to_dashboard env (.obj [("dashboard_id", .num 2)]) =
        .fail (.mcp ⟨.invalidParams, "Card ID is required for add_card_to_dashboard"⟩) []) ∧
    (remove_card_from_dashboard env (.obj [("dashboard_id", .num 0), ("dashcard_id", .num 5)]) =
        .fail (.mcp ⟨.invalidParams,
          "Dashboard ID is required for remove_card_from_dashboard"⟩) [] ∧
      remove_card_from_dashboard env (.obj [("dashcard_id", .num 5)]) =
        .fail (.mcp ⟨.invalidParams,
          "Dashboard ID is required for remove_card_from_dashboard"⟩) [] ∧
      remove_card_from_dashboard env (.obj [("dashboard_id", .num 2), ("dashcard_id", .num 0)]) =
        .fail (.mcp ⟨.invalidParams,
          "Dashcard ID is required for remove_card_from_dashboard"⟩) [] ∧
      remove_card_from_dashboard env (.obj [("dashboard_id", .num 2)]) =
        .fail (.mcp ⟨.invalidParams,
          "Dashcard ID is required for remove_card_from_dashboard"⟩) []) ∧
    (update_dashboard_card env
        (.obj [("dashboard_id", .num 0), ("dashcard_id", .num 5), ("row", .num 1)]) =
        .fail (.mcp ⟨.invalidParams, "Dashboard ID is required for update_dashboard_card"⟩) [] ∧
      update_dashboard_card env (.obj [("dashcard_id", .num 5), ("row", .num 1)]) =
        .fail (.mcp ⟨.invalidParams, "Dashboard ID is required for update_dashboard_card"⟩) [] ∧
      update_dashboard_card env
        (.obj [("dashboard_id", .num 2), ("dashcard_id", .num 0), ("row", .num 1)]) =
        .fail (.mcp ⟨.invalidParams, "Dashcard ID is required for update_dashboard_card"⟩) [] ∧
      update_dashboard_card env (.obj [("dashboard_id", .num 2), ("row", .num 1)]) =
        .fail (.mcp ⟨.invalidParams, "Dashcard ID is required for update_dashboard_card"⟩) []) ∧
    (create_dashboard_only_card env
        (.obj [("dashboard_id", .num 0), ("name", .str "n"), ("dataset_query", .obj []),
          ("display", .str "table"), ("visualization_settings", .obj [])]) =
        .fail (.mcp ⟨.invalidParams,
          "Dashboard ID is required for create_dashboard_only_card"⟩) [] ∧
      create_dashboard_only_card env
        (.obj [("name", .str "n"), ("dataset_query", .obj []),
          ("display", .str "table"), ("visualization_settings", .obj [])]) =
        .fail (.mcp ⟨.invalidParams,
          "Dashboard ID is required for create_dashboard_only_card"⟩) []) :=
  ⟨⟨rfl, rfl⟩, ⟨rfl, rfl⟩, ⟨rfl, rfl⟩, ⟨rfl, rfl⟩, ⟨rfl, rfl⟩, ⟨rfl, rfl⟩, ⟨rfl, rfl⟩,
    ⟨rfl, rfl⟩, ⟨rfl, rfl⟩, ⟨rfl, rfl, rfl, rfl⟩, ⟨rfl, rfl, rfl, rfl⟩,
    ⟨rfl, rfl, rfl, rfl⟩, ⟨rfl, rfl⟩⟩

end MetabaseMCP
